import Mathlib

/-!
Shallow embedding, in Lean, of the pile bearing-capacity and pile-cap
verification core of the base-tanque repository (files suelo.py and
zpilot.py), together with theorems settling the specification claims.

Modeling conventions. Python floats are modeled as exact rational
numbers: numeric literals are read at face value, and the constant
math.pi is the exact rational value of the IEEE-754 double that CPython
stores for it. Raised Python exceptions, and the NaN that np.mean
produces on an empty array, are modeled as the non-ok outcomes of an
Except computation. Divisions whose divisor is a fixed nonzero literal
in the source are translated as plain rational division; divisions whose
divisor can be zero at run time are guarded and produce the
ZeroDivisionError outcome, as Python would.
-/

/-- Non-numeric outcomes of running the Python code: raised exceptions,
plus the NaN produced by np.mean on an empty slice. The outOfRange
constructor stands for the IndexError that Suelo.Np raises explicitly
with its own message when the pile is longer than the surveyed profile;
indexError is the implicit one raised by an out-of-bounds subscript. -/
inductive PyEvalErr where
  | typeError
  | indexError
  | keyError
  | outOfRange
  | zeroDivision
  | attributeError
  | nan
  deriving DecidableEq

/-- Python int() applied to a rational: truncation toward zero. -/
def pyInt (q : ℚ) : ℤ := q.num.tdiv q.den

/-- Python list subscript lst[i]: a negative index counts from the end of
the list, and an index that is still out of bounds raises IndexError. -/
def pyGet (l : List ℚ) (i : ℤ) : Except PyEvalErr ℚ :=
  let j : ℤ := if i < 0 then i + l.length else i
  if 0 ≤ j ∧ j < (l.length : ℤ) then .ok (l.getD j.toNat 0) else .error .indexError

/-- Python slice lst[:k]: a negative bound counts from the end of the
list and the result is clipped to the available elements, never an
error. -/
def pySliceTo (l : List ℚ) (k : ℤ) : List ℚ :=
  let j : ℤ := if k < 0 then k + l.length else k
  l.take j.toNat

/-- The Python constant math.pi: the exact rational value of the
IEEE-754 double 3.141592653589793 that CPython stores, which is
884279719003555 divided by 2 to the 48th power. -/
def mathPi : ℚ := 884279719003555 / 281474976710656

/-- spt_ajustado, textually identical in Suelo (suelo.py) and Pilote
(zpilot.py): two successive np.where rewrites, values below 3 become 3,
then values above 50 become 50. -/
def sptAdjust (spt : List ℚ) : List ℚ :=
  let nuevo := spt.map fun v => if v < 3 then 3 else v
  nuevo.map fun v => if v > 50 then 50 else v

/-- Suelo (suelo.py): the surveyed SPT profile, one blow count per meter.
The tipo_ref attribute plays no part in any computation treated here and
is omitted. -/
structure Suelo where
  spt : List ℚ

/-- Suelo.profundidad_sondeada: len(self.spt). -/
def Suelo.profundidad_sondeada (s : Suelo) : ℕ := s.spt.length

/-- Suelo.Np (suelo.py lines 49-60): average of the adjusted SPT values
around the pile tip. When the profile length equals int(length) it
averages the last three values (negative subscripts); when the profile
is strictly longer it averages the three values straddling the tip;
otherwise it raises the explicit IndexError about the pile being longer
than the surveyed depth. -/
def Suelo.Np (s : Suelo) (longitud_pilote : ℚ) : Except PyEvalErr ℚ :=
  let S := sptAdjust s.spt
  let ps := Suelo.profundidad_sondeada s
  let L := pyInt longitud_pilote
  if (ps : ℤ) = L then do
    let a ← pyGet S (-3)
    let b ← pyGet S (-2)
    let c ← pyGet S (-1)
    pure ((a + b + c) / 3)
  else if (ps : ℤ) > L then do
    let a ← pyGet S (L - 2)
    let b ← pyGet S (L - 1)
    let c ← pyGet S L
    pure ((a + b + c) / 3)
  else
    .error .outOfRange

/-- Suelo.NL (suelo.py lines 62-68): np.mean of the adjusted values
sliced up to int(length) - 2. The slice silently clips to the available
elements, so no length check ever fires; np.mean of an empty slice is
NaN. -/
def Suelo.NL (s : Suelo) (longitud_pilote : ℚ) : Except PyEvalErr ℚ :=
  let L := pyInt longitud_pilote
  let spt_L := pySliceTo (sptAdjust s.spt) (L - 2)
  if spt_L.length = 0 then .error .nan
  else .ok (spt_L.sum / (spt_L.length : ℚ))

/-- TABLALPHA of zpilot.py, stored as one inner list per perforation
type (the columns of the pandas DataFrame), with four soil entries per
inner list, exactly the ALPHA dictionary of the source. -/
def TABLALPHA : List (List ℚ) :=
  [[1.0, 1.0, 1.0, 1.0],
   [0.85, 0.60, 0.60, 0.50],
   [0.85, 0.60, 0.60, 0.50],
   [0.30, 0.30, 0.30, 0.30],
   [0.85, 0.60, 0.60, 0.50],
   [1.0, 1.0, 1.0, 1.0]]

/-- TABLABETA of zpilot.py, same layout as TABLALPHA. -/
def TABLABETA : List (List ℚ) :=
  [[1.0, 1.0, 1.0, 1.0],
   [0.85, 0.65, 0.65, 0.50],
   [0.90, 0.75, 0.75, 0.60],
   [1.0, 1.0, 1.0, 1.0],
   [1.5, 1.5, 1.5, 1.5],
   [3.0, 3.0, 3.0, 3.0]]

/-- DK of zpilot.py: the K constant per soil type, in N per square
meter. -/
def DK : List ℚ := [120000, 200000, 250000, 400000]

/-- DataFrame .iloc[fila, columna] on the two tables above: fila picks
the soil, columna picks the perforation; since the tables store one
inner list per perforation, the column selects the outer list. An
out-of-bounds position raises IndexError. Soil and perforation codes are
taken as naturals; negative codes, which pandas would wrap, appear in no
claim. -/
def iloc (tabla : List (List ℚ)) (fila columna : ℕ) : Except PyEvalErr ℚ :=
  match tabla[columna]? with
  | none => .error .indexError
  | some col =>
    match col[fila]? with
    | none => .error .indexError
    | some x => .ok x

/-- Pilote (zpilot.py), fields in source order. The fields inherited
from Hormigon (peso_esp, elasticidad) play no part in the capacity
computations and are omitted. -/
structure Pilote where
  longitud : ℚ
  diametro : ℚ
  traccion : ℚ
  spt : List ℚ
  suelo_punta : ℕ
  suelo_fuste : ℕ
  perforacion_tipo : ℕ
  gamma_p : ℚ
  gamma_L : ℚ

/-- Pilote.area: cross-section area. -/
def Pilote.area (p : Pilote) : ℚ := mathPi * (p.diametro / 2) ^ 2

/-- Pilote.area_lateral: lateral surface area. -/
def Pilote.area_lateral (p : Pilote) : ℚ := mathPi * p.diametro * p.longitud

/-- Pilote.spt_ajustado: same clamping as in Suelo. -/
def Pilote.spt_ajustado (p : Pilote) : List ℚ := sptAdjust p.spt

/-- Pilote.alpha: TABLALPHA.iloc[suelo_punta, perforacion_tipo]. -/
def Pilote.alpha (p : Pilote) : Except PyEvalErr ℚ :=
  iloc TABLALPHA p.suelo_punta p.perforacion_tipo

/-- Pilote.valor_K: DK[suelo_punta]. -/
def Pilote.valor_K (p : Pilote) : Except PyEvalErr ℚ :=
  match DK[p.suelo_punta]? with
  | none => .error .indexError
  | some k => .ok k

/-- Pilote.Np (zpilot.py lines 182-189). When the profile length equals
int(length) the source evaluates (S[-3], S[-2], S[-1])/3: it builds a
tuple and divides it by an int, which raises TypeError, after the three
subscript reads have succeeded. The other branch averages the three
values straddling the tip, with no range guard of its own. -/
def Pilote.Np (p : Pilote) : Except PyEvalErr ℚ :=
  let S := Pilote.spt_ajustado p
  let L := pyInt p.longitud
  if (p.spt.length : ℤ) = L then do
    let _ ← pyGet S (-3)
    let _ ← pyGet S (-2)
    let _ ← pyGet S (-1)
    .error .typeError
  else do
    let a ← pyGet S (L - 2)
    let b ← pyGet S (L - 1)
    let c ← pyGet S L
    pure ((a + b + c) / 3)

/-- Pilote.rp: valor_K() * Np(). -/
def Pilote.rp (p : Pilote) : Except PyEvalErr ℚ := do
  let k ← Pilote.valor_K p
  let np ← Pilote.Np p
  pure (k * np)

/-- Pilote.Rp: alpha() * rp() * area() / gamma_p. A zero gamma_p would
raise ZeroDivisionError in Python. -/
def Pilote.Rp (p : Pilote) : Except PyEvalErr ℚ := do
  let a ← Pilote.alpha p
  let r ← Pilote.rp p
  if p.gamma_p = 0 then .error .zeroDivision
  else pure (a * r * Pilote.area p / p.gamma_p)

/-- Pilote.beta: TABLABETA.iloc[suelo_fuste, perforacion_tipo]. -/
def Pilote.beta (p : Pilote) : Except PyEvalErr ℚ :=
  iloc TABLABETA p.suelo_fuste p.perforacion_tipo

/-- Pilote.NL (zpilot.py lines 204-210): same computation as Suelo.NL. -/
def Pilote.NL (p : Pilote) : Except PyEvalErr ℚ :=
  let L := pyInt p.longitud
  let spt_L := pySliceTo (Pilote.spt_ajustado p) (L - 2)
  if spt_L.length = 0 then .error .nan
  else .ok (spt_L.sum / (spt_L.length : ℚ))

/-- Pilote.rL: 10e3 * (NL() / 3 + 1). -/
def Pilote.rL (p : Pilote) : Except PyEvalErr ℚ := do
  let nl ← Pilote.NL p
  pure (10000 * (nl / 3 + 1))

/-- Pilote.RL: beta() * rL() * area_lateral() / gamma_L. A zero gamma_L
would raise ZeroDivisionError in Python. -/
def Pilote.RL (p : Pilote) : Except PyEvalErr ℚ := do
  let b ← Pilote.beta p
  let r ← Pilote.rL p
  if p.gamma_L = 0 then .error .zeroDivision
  else pure (b * r * Pilote.area_lateral p / p.gamma_L)

/-- Pilote.R_adm (zpilot.py lines 224-240): the NBR6122 section 8.2.1.2
rule. For an excavated perforation (codes 1 and 2) the usable tip
resistance is capped at 0.25 times the shaft resistance; the result is
the capped tip value plus the shaft value. -/
def Pilote.R_adm (p : Pilote) : Except PyEvalErr ℚ := do
  let rp1 ← Pilote.Rp p
  let rl ← Pilote.RL p
  let rp_max := if p.perforacion_tipo ∈ [1, 2] then min rp1 (0.25 * rl) else rp1
  pure (rp_max + rl)

/-- Cabezal (zpilot.py), a square cap. peso_esp is the field inherited
from Hormigon that the self-weight computation reads. The tipo value is
stored here as a plain field; the validating property setter of the
source is modeled separately as tipoSetter. -/
structure Cabezal where
  peso_esp : ℚ
  pilote : Pilote
  tipo : ℕ
  B : ℚ
  h : ℚ
  v : ℚ
  N : ℚ
  H : ℚ
  M : ℚ

/-- Cabezal.peso: self weight of the square prism. -/
def Cabezal.peso (c : Cabezal) : ℚ := c.B ^ 2 * c.h * c.peso_esp

/-- tipologia(): the dict from cap type to number of piles. -/
def tipologia : List (ℕ × ℕ) := [(1, 4), (2, 5), (3, 9)]

/-- tipos_permitidos(): the keys of tipologia. -/
def tipos_permitidos : List ℕ := [1, 2, 3]

/-- Cabezal.numero_pilotes: tipologia()[tipo], KeyError when the stored
tipo is not a key. -/
def Cabezal.numero_pilotes (c : Cabezal) : Except PyEvalErr ℕ :=
  match tipologia.lookup c.tipo with
  | some n => .ok n
  | none => .error .keyError

/-- factores(): the dict from cap type to the distribution factor n. -/
def factores : List (ℕ × ℕ) := [(1, 2), (2, 2), (3, 3)]

/-- Cabezal.factor_pilote: factores()[tipo], KeyError when the stored
tipo is not a key. -/
def Cabezal.factor_pilote (c : Cabezal) : Except PyEvalErr ℕ :=
  match factores.lookup c.tipo with
  | some n => .ok n
  | none => .error .keyError

/-- Cabezal.separacion_min: 2.5 times the pile diameter. -/
def Cabezal.separacion_min (c : Cabezal) : ℚ := 2.5 * c.pilote.diametro

/-- Cabezal.ancho_min (zpilot.py lines 356-377). NOTE: the source reads
NP = self.numero_pilotes without calling it, so NP is a bound method,
never equal to a key of the layout-multiplier dict mapping 4 to 1, 5 to
sqrt 2 and 9 to 2, and factores.get(NP, 1) always returns the default 1:
the b1 term below is therefore 1 * s_min for every layout, and the
sqrt 2 and 2 multipliers are dead values. A zero denominator in the
equilibrium term raises ZeroDivisionError. -/
def Cabezal.ancho_min (c : Cabezal) : Except PyEvalErr ℚ := do
  let D := c.pilote.diametro
  let P ← Pilote.R_adm c.pilote
  let T := c.pilote.traccion
  let n ← Cabezal.factor_pilote c
  let v := c.v
  let s_min := Cabezal.separacion_min c
  let b1 := 1 * s_min
  let denom := (n : ℚ) * P + (n : ℚ) * T
  if denom = 0 then .error .zeroDivision
  else
    let b2 := 2 * (c.H * c.h + c.M) / denom
    pure (2 * v + D + max b1 b2)

/-- Cabezal.cargaH1: the no-wind hypothesis, (N + W) / number of
piles. -/
def Cabezal.cargaH1 (c : Cabezal) : Except PyEvalErr ℚ := do
  let np ← Cabezal.numero_pilotes c
  pure ((c.N + Cabezal.peso c) / (np : ℚ))

/-- Cabezal.cargaH2 (zpilot.py lines 387-401): the wind hypothesis. For
a tipo outside 1, 2, 3 the Python function would fall through its
if-elif chain and return None, hence the Option in the result; that
branch is in fact unreachable because factor_pilote already raises
KeyError for such a tipo. A zero clear span b raises
ZeroDivisionError. -/
def Cabezal.cargaH2 (c : Cabezal) : Except PyEvalErr (Option ℚ) := do
  let n ← Cabezal.factor_pilote c
  let b := c.B - 2 * c.v - c.pilote.diametro
  if c.tipo = 1 then
    if b = 0 then .error .zeroDivision
    else pure (some (((c.N + Cabezal.peso c) / 2 + (c.H * c.h + c.M) / b) / (n : ℚ)))
  else if c.tipo ∈ [2, 3] then
    if b = 0 then .error .zeroDivision
    else pure (some ((2 / 3 * ((c.N + Cabezal.peso c) / 2 + (c.H * c.h + c.M) / b)) / (n : ℚ)))
  else
    pure none

/-- Cabezal.carga_pilote: max of the two hypotheses. Comparing a float
with the None that cargaH2 returns on an invalid tipo would raise
TypeError in Python. -/
def Cabezal.carga_pilote (c : Cabezal) : Except PyEvalErr ℚ := do
  let h1 ← Cabezal.cargaH1 c
  let h2 ← Cabezal.cargaH2 c
  match h2 with
  | some q => pure (max h1 q)
  | none => .error .typeError

/-- Cabezal.verif_pilote: carga_pilote() < pilote.R_adm(). -/
def Cabezal.verif_pilote (c : Cabezal) : Except PyEvalErr Bool := do
  let cp ← Cabezal.carga_pilote c
  let ra ← Pilote.R_adm c.pilote
  pure (decide (cp < ra))

/-- The tipo property setter (zpilot.py lines 330-335). A permitted
value is stored. On an invalid value the source builds a ValueError
whose message interpolates self.tipo, raising AttributeError when _tipo
was never assigned, and then list(self.tipologia.keys()), raising
AttributeError always, because tipologia is a method and not a dict; so
an AttributeError escapes while the f-string is evaluated, and the
ValueError itself is never raised. The first argument is the previously
stored _tipo, if any; the result is the outcome together with the value
stored afterwards. -/
def tipoSetter (_old : Option ℕ) (tipo2 : ℕ) : Except PyEvalErr (Option ℕ) :=
  if tipo2 ∈ tipos_permitidos then .ok (some tipo2)
  else .error .attributeError

/-- First boring of the worked example at the bottom of zpilot.py. -/
def SPT1 : List ℚ := [2, 2, 2, 2, 2, 2, 4, 4, 6, 4, 5, 4, 5, 4, 6, 7, 8, 8, 8, 8, 11, 15]

/-- Second boring of the worked example. -/
def SPT2 : List ℚ := [2, 2, 2, 2, 2, 2, 2, 3, 6, 5, 6, 6, 6, 6, 8, 8, 8, 8, 9, 10, 13, 16]

/-- spt = (SPT1 + SPT2) / 2, the averaged 22-value profile of the worked
example. -/
def exampleSpt : List ℚ := List.zipWith (fun a b => (a + b) / 2) SPT1 SPT2

/-- The worked example pile: length 15, diameter 0.40, silty clay (code
1) at tip and shaft, Strauss excavation (code 1), default safety
factors 4 and 1.3, default tension capacity 0. -/
def examplePilote : Pilote := ⟨15, 0.40, 0, exampleSpt, 1, 1, 1, 4, 1.3⟩

/-- The same pile with the installation method changed to driven
(code 0). -/
def exampleDriven : Pilote := ⟨15, 0.40, 0, exampleSpt, 1, 1, 0, 4, 1.3⟩

/-- A five-pile cap on the worked example pile, with loads applied. -/
def exampleCabezal : Cabezal := ⟨24000, examplePilote, 2, 3.5, 1, 0.3, 1000000, 10000, 20000⟩

/-- The five-pile cap of the worked example with no wind load, used to
exhibit the layout-multiplier defect of ancho_min. -/
def exampleCabezal5 : Cabezal := ⟨24000, examplePilote, 2, 3.5, 1, 0.3, 1000000, 0, 0⟩

/-- A four-pile cap whose width B equals 2 v plus the pile diameter, so
the clear span b is zero. -/
def exampleCabezalZero : Cabezal := ⟨24000, examplePilote, 1, 1, 1, 0.3, 1000, 10, 5⟩

/-! ## Helper lemmas -/

theorem ebind_ok {α β : Type} (a : α) (f : α → Except PyEvalErr β) :
    (Except.ok a : Except PyEvalErr α) >>= f = f a := rfl

theorem ebind_err {α β : Type} (e : PyEvalErr) (f : α → Except PyEvalErr β) :
    (Except.error e : Except PyEvalErr α) >>= f = .error e := rfl

theorem epure {α : Type} (a : α) : (pure a : Except PyEvalErr α) = .ok a := rfl

theorem pyInt_natCast (n : ℕ) : pyInt (n : ℚ) = n := by
  simp [pyInt]

theorem pyInt_natCast_sub_one (n : ℕ) (h : 1 ≤ n) :
    pyInt ((n : ℚ) - 1) = (n : ℤ) - 1 := by
  have h1 : ((n : ℚ) - 1) = ((n - 1 : ℕ) : ℚ) := by
    rw [Nat.cast_sub h, Nat.cast_one]
  rw [h1, pyInt_natCast]
  omega

theorem pyGet_nonneg (l : List ℚ) (i : ℤ) (h0 : 0 ≤ i) (h1 : i < (l.length : ℤ)) :
    pyGet l i = .ok (l.getD i.toNat 0) := by
  have hi : ¬ i < 0 := by omega
  simp only [pyGet, if_neg hi]
  rw [if_pos ⟨h0, h1⟩]

theorem pyGet_neg (l : List ℚ) (i : ℤ) (hi : i < 0) (h : 0 ≤ i + (l.length : ℤ)) :
    pyGet l i = .ok (l.getD (i + (l.length : ℤ)).toNat 0) := by
  simp only [pyGet, if_pos hi]
  rw [if_pos ⟨h, by omega⟩]

theorem sptAdjust_length (l : List ℚ) : (sptAdjust l).length = l.length := by
  simp [sptAdjust]

theorem sptAdjust_eq_clamp (l : List ℚ) :
    sptAdjust l = l.map fun v => min (max v 3) 50 := by
  simp only [sptAdjust, List.map_map]
  have h : ((fun v => if v > 50 then (50 : ℚ) else v)
      ∘ fun v => if v < 3 then (3 : ℚ) else v) = fun v => min (max v 3) 50 := by
    funext v
    simp only [Function.comp, min_def, max_def]
    split_ifs <;> linarith
  rw [h]

/-! ## Claim theorems -/

/-- C6: every element of the adjusted SPT sequence lies in the interval
[3, 50], each element is the clamp of the corresponding raw value to
[3, 50], and the adjusted sequence is monotonically non-decreasing in
the raw sequence. -/
theorem spt_ajustado_clamped_and_monotone (l l' : List ℚ)
    (hle : List.Forall₂ (· ≤ ·) l l') :
    (∀ x ∈ sptAdjust l, 3 ≤ x ∧ x ≤ 50)
    ∧ sptAdjust l = l.map (fun v => min (max v 3) 50)
    ∧ List.Forall₂ (· ≤ ·) (sptAdjust l) (sptAdjust l') := by
  refine ⟨?_, sptAdjust_eq_clamp l, ?_⟩
  · intro x hx
    rw [sptAdjust_eq_clamp] at hx
    simp only [List.mem_map] at hx
    obtain ⟨v, -, rfl⟩ := hx
    exact ⟨le_min (le_max_right v 3) (by norm_num), min_le_right _ _⟩
  · rw [sptAdjust_eq_clamp, sptAdjust_eq_clamp]
    rw [List.forall₂_map_left_iff, List.forall₂_map_right_iff]
    exact hle.imp fun {a b} hab => min_le_min (max_le_max hab le_rfl) le_rfl

/-- Witness for C6 at a concrete pair of raw sequences. -/
theorem spt_ajustado_clamped_and_monotone_witness :
    (∀ x ∈ sptAdjust [2, 60, 7], 3 ≤ x ∧ x ≤ 50)
    ∧ sptAdjust [2, 60, 7] = List.map (fun v => min (max v 3) 50) [2, 60, 7]
    ∧ List.Forall₂ (· ≤ ·) (sptAdjust [2, 60, 7]) (sptAdjust [2, 61, 8]) :=
  spt_ajustado_clamped_and_monotone [2, 60, 7] [2, 61, 8]
    (by norm_num [List.forall₂_cons])

/-- C9: evaluating the tipo setter of Cabezal at an invalid layout value.
The stored value 7 is rejected, but the failure is the accidental
AttributeError raised while the error message is built, not the
ValueError the code constructs and never raises; a valid value is
stored. -/
theorem tipo_setter_attribute_error :
    tipoSetter (some 1) 7 = .error .attributeError
    ∧ tipoSetter none 7 = .error .attributeError
    ∧ tipoSetter (some 1) 2 = .ok (some 2) :=
  ⟨rfl, rfl, rfl⟩


/-- Helper: Suelo.Np at a pile length equal to the surveyed depth takes
the first branch and averages the last three adjusted values. -/
theorem Suelo_Np_at_depth (s : Suelo) (h3 : 3 ≤ s.spt.length) :
    Suelo.Np s (s.spt.length : ℚ)
      = .ok (((sptAdjust s.spt).getD (s.spt.length - 3) 0
            + (sptAdjust s.spt).getD (s.spt.length - 2) 0
            + (sptAdjust s.spt).getD (s.spt.length - 1) 0) / 3) := by
  have hS : (sptAdjust s.spt).length = s.spt.length := sptAdjust_length s.spt
  simp only [Suelo.Np, Suelo.profundidad_sondeada, pyInt_natCast]
  rw [if_pos trivial]
  rw [pyGet_neg (sptAdjust s.spt) (-3) (by norm_num) (by rw [hS]; omega), ebind_ok]
  rw [pyGet_neg (sptAdjust s.spt) (-2) (by norm_num) (by rw [hS]; omega), ebind_ok]
  rw [pyGet_neg (sptAdjust s.spt) (-1) (by norm_num) (by rw [hS]; omega), ebind_ok]
  rw [hS]
  rw [show ((-3 : ℤ) + (s.spt.length : ℤ)).toNat = s.spt.length - 3 by omega]
  rw [show ((-2 : ℤ) + (s.spt.length : ℤ)).toNat = s.spt.length - 2 by omega]
  rw [show ((-1 : ℤ) + (s.spt.length : ℤ)).toNat = s.spt.length - 1 by omega]
  rfl

/-- Helper: Suelo.Np at a pile length strictly below the surveyed depth
takes the straddling branch and averages the three adjusted values at
positions L - 2, L - 1 and L. -/
theorem Suelo_Np_straddle (s : Suelo) (L : ℕ) (h2 : 2 ≤ L) (hlt : L < s.spt.length) :
    Suelo.Np s (L : ℚ)
      = .ok (((sptAdjust s.spt).getD (L - 2) 0
            + (sptAdjust s.spt).getD (L - 1) 0
            + (sptAdjust s.spt).getD L 0) / 3) := by
  have hS : (sptAdjust s.spt).length = s.spt.length := sptAdjust_length s.spt
  simp only [Suelo.Np, Suelo.profundidad_sondeada, pyInt_natCast]
  rw [if_neg (by omega), if_pos (by omega)]
  rw [pyGet_nonneg (sptAdjust s.spt) ((L : ℤ) - 2) (by omega) (by rw [hS]; omega), ebind_ok]
  rw [pyGet_nonneg (sptAdjust s.spt) ((L : ℤ) - 1) (by omega) (by rw [hS]; omega), ebind_ok]
  rw [pyGet_nonneg (sptAdjust s.spt) ((L : ℤ)) (by omega) (by rw [hS]; omega), ebind_ok]
  rw [show ((L : ℤ) - 2).toNat = L - 2 by omega]
  rw [show ((L : ℤ) - 1).toNat = L - 1 by omega]
  rw [show ((L : ℤ)).toNat = L by omega]
  rfl

/-- C4, counterexample: the claim says shaft_average (NL) fails with
OutOfRangeError whenever the pile length exceeds the profile length, but
on the five-value profile with pile length 10 the slice silently clips
and NL returns the plain mean 5 with no error. -/
theorem NL_no_error_beyond_depth :
    Suelo.profundidad_sondeada ⟨[5, 5, 5, 5, 5]⟩ < 10
    ∧ Suelo.NL ⟨[5, 5, 5, 5, 5]⟩ ((10 : ℕ) : ℚ) = .ok 5 := by
  refine ⟨by norm_num [Suelo.profundidad_sondeada], ?_⟩
  simp only [Suelo.NL, pyInt_natCast, pySliceTo]
  rw [if_neg (show ¬ ((((10 : ℕ) : ℤ)) - 2 < 0) by decide)]
  rw [show ((((10 : ℕ) : ℤ)) - 2).toNat = 8 by decide]
  norm_num [sptAdjust]

/-- C4, amended: Np fails with the explicit out-of-range IndexError
whenever the pile length exceeds the profile length, and succeeds when
3 is at most L and L is at most the profile length; NL, however, never
raises at all when the pile length exceeds the profile length: the slice
clips and NL returns the mean of the whole adjusted profile (a finite
number whenever the profile is nonempty and L is at least 3). -/
theorem Np_NL_range_behavior (s : Suelo) (L : ℕ) :
    (s.spt.length < L → Suelo.Np s (L : ℚ) = .error .outOfRange)
    ∧ (3 ≤ L → L ≤ s.spt.length → ∃ q, Suelo.Np s (L : ℚ) = .ok q)
    ∧ (1 ≤ s.spt.length → s.spt.length < L → 3 ≤ L →
        ∃ q, Suelo.NL s (L : ℚ) = .ok q) := by
  have hS : (sptAdjust s.spt).length = s.spt.length := sptAdjust_length s.spt
  refine ⟨?_, ?_, ?_⟩
  · intro h
    simp only [Suelo.Np, Suelo.profundidad_sondeada, pyInt_natCast]
    rw [if_neg (by omega), if_neg (by omega)]
  · intro h3 hle
    by_cases hEq : L = s.spt.length
    · subst hEq
      exact ⟨_, Suelo_Np_at_depth s h3⟩
    · exact ⟨_, Suelo_Np_straddle s L (by omega) (by omega)⟩
  · intro h1 h2 h3
    refine ⟨(pySliceTo (sptAdjust s.spt) ((L : ℤ) - 2)).sum
        / ((pySliceTo (sptAdjust s.spt) ((L : ℤ) - 2)).length : ℚ), ?_⟩
    have hne : ¬ ((pySliceTo (sptAdjust s.spt) ((L : ℤ) - 2)).length = 0) := by
      simp only [pySliceTo]
      rw [if_neg (show ¬ ((L : ℤ) - 2 < 0) by omega)]
      rw [List.length_take, hS]
      omega
    simp only [Suelo.NL, pyInt_natCast]
    rw [if_neg hne]

/-- Witness for C4 (amended) at the five-value profile. -/
theorem Np_NL_range_behavior_witness :
    Suelo.Np ⟨[5, 5, 5, 5, 5]⟩ ((10 : ℕ) : ℚ) = .error .outOfRange
    ∧ (∃ q, Suelo.Np ⟨[5, 5, 5, 5, 5]⟩ ((5 : ℕ) : ℚ) = .ok q)
    ∧ (∃ q, Suelo.NL ⟨[5, 5, 5, 5, 5]⟩ ((10 : ℕ) : ℚ) = .ok q) :=
  ⟨(Np_NL_range_behavior ⟨[5, 5, 5, 5, 5]⟩ 10).1 (by decide),
   (Np_NL_range_behavior ⟨[5, 5, 5, 5, 5]⟩ 5).2.1 (by decide) (by decide),
   (Np_NL_range_behavior ⟨[5, 5, 5, 5, 5]⟩ 10).2.2 (by decide) (by decide) (by decide)⟩

/-- C7: at a pile length exactly equal to the surveyed depth, Suelo.Np
takes the last-three-measurements branch and returns the mean of the
last three adjusted values, and the straddling branch at depth minus one
returns the same value, so the two paths are continuous across the
boundary. -/
theorem Np_boundary_continuity (s : Suelo) (h3 : 3 ≤ s.spt.length) :
    Suelo.Np s (s.spt.length : ℚ)
      = .ok (((sptAdjust s.spt).getD (s.spt.length - 3) 0
            + (sptAdjust s.spt).getD (s.spt.length - 2) 0
            + (sptAdjust s.spt).getD (s.spt.length - 1) 0) / 3)
    ∧ Suelo.Np s ((s.spt.length : ℚ) - 1) = Suelo.Np s (s.spt.length : ℚ) := by
  refine ⟨Suelo_Np_at_depth s h3, ?_⟩
  have hcast : ((s.spt.length : ℚ) - 1) = ((s.spt.length - 1 : ℕ) : ℚ) := by
    rw [Nat.cast_sub (by omega), Nat.cast_one]
  rw [hcast, Suelo_Np_straddle s (s.spt.length - 1) (by omega) (by omega),
    Suelo_Np_at_depth s h3]
  rw [show s.spt.length - 1 - 2 = s.spt.length - 3 by omega]
  rw [show s.spt.length - 1 - 1 = s.spt.length - 2 by omega]

/-- Witness for C7 at a concrete four-value profile. -/
theorem Np_boundary_continuity_witness :
    Suelo.Np ⟨[4, 5, 6, 7]⟩ ((4 : ℕ) : ℚ)
      = .ok (((sptAdjust [4, 5, 6, 7]).getD 1 0 + (sptAdjust [4, 5, 6, 7]).getD 2 0
            + (sptAdjust [4, 5, 6, 7]).getD 3 0) / 3)
    ∧ Suelo.Np ⟨[4, 5, 6, 7]⟩ (((4 : ℕ) : ℚ) - 1) = Suelo.Np ⟨[4, 5, 6, 7]⟩ ((4 : ℕ) : ℚ) :=
  Np_boundary_continuity ⟨[4, 5, 6, 7]⟩ (by decide)

/-! ## Evaluation of the worked example -/

theorem exampleSpt_eval :
    exampleSpt = [2, 2, 2, 2, 2, 2, 3, 7/2, 6, 9/2, 11/2, 5, 11/2, 5, 7, 15/2, 8, 8,
      17/2, 9, 12, 31/2] := by
  norm_num [exampleSpt, SPT1, SPT2]

theorem exampleSpt_length : exampleSpt.length = 22 := by
  rw [exampleSpt_eval]
  rfl

theorem exampleAdj_eval :
    sptAdjust exampleSpt = [3, 3, 3, 3, 3, 3, 3, 7/2, 6, 9/2, 11/2, 5, 11/2, 5, 7,
      15/2, 8, 8, 17/2, 9, 12, 31/2] := by
  rw [exampleSpt_eval]
  norm_num [sptAdjust]

theorem pyInt_fifteen : pyInt 15 = 15 := by
  simp [pyInt]

theorem Np_eval_generic (t : ℕ) :
    Pilote.Np ⟨15, 0.40, 0, exampleSpt, 1, 1, t, 4, 1.3⟩ = .ok (13/2) := by
  simp only [Pilote.Np, Pilote.spt_ajustado, pyInt_fifteen, exampleSpt_length,
    exampleAdj_eval]
  rw [if_neg (by decide)]
  simp [pyGet, ebind_ok, epure]
  norm_num

theorem NL_eval_generic (t : ℕ) :
    Pilote.NL ⟨15, 0.40, 0, exampleSpt, 1, 1, t, 4, 1.3⟩ = .ok (51/13) := by
  simp only [Pilote.NL, Pilote.spt_ajustado, pyInt_fifteen, exampleAdj_eval, pySliceTo]
  simp
  norm_num

theorem rp_eval_generic (t : ℕ) :
    Pilote.rp ⟨15, 0.40, 0, exampleSpt, 1, 1, t, 4, 1.3⟩ = .ok 1300000 := by
  have hK : Pilote.valor_K (⟨15, 0.40, 0, exampleSpt, 1, 1, t, 4, 1.3⟩ : Pilote)
      = .ok 200000 := by
    simp [Pilote.valor_K, DK]
  simp only [Pilote.rp, hK, Np_eval_generic t, ebind_ok, epure]
  norm_num [Except.ok.injEq]

theorem rL_eval_generic (t : ℕ) :
    Pilote.rL ⟨15, 0.40, 0, exampleSpt, 1, 1, t, 4, 1.3⟩ = .ok (300000 / 13) := by
  simp only [Pilote.rL, NL_eval_generic t, ebind_ok, epure]
  norm_num [Except.ok.injEq]

theorem examplePilote_Rp : Pilote.Rp examplePilote = .ok (7800 * mathPi) := by
  have ha : Pilote.alpha (⟨15, 0.40, 0, exampleSpt, 1, 1, 1, 4, 1.3⟩ : Pilote)
      = .ok 0.60 := by
    simp [Pilote.alpha, iloc, TABLALPHA]
  show Pilote.Rp ⟨15, 0.40, 0, exampleSpt, 1, 1, 1, 4, 1.3⟩ = .ok (7800 * mathPi)
  simp only [Pilote.Rp, ha, rp_eval_generic 1, ebind_ok]
  rw [if_neg (by norm_num)]
  simp only [Pilote.area, epure]
  norm_num [Except.ok.injEq]
  ring

theorem examplePilote_RL : Pilote.RL examplePilote = .ok (900000 / 13 * mathPi) := by
  have hb : Pilote.beta (⟨15, 0.40, 0, exampleSpt, 1, 1, 1, 4, 1.3⟩ : Pilote)
      = .ok 0.65 := by
    simp [Pilote.beta, iloc, TABLABETA]
  show Pilote.RL ⟨15, 0.40, 0, exampleSpt, 1, 1, 1, 4, 1.3⟩ = .ok (900000 / 13 * mathPi)
  simp only [Pilote.RL, hb, rL_eval_generic 1, ebind_ok]
  rw [if_neg (by norm_num)]
  simp only [Pilote.area_lateral, epure]
  norm_num [Except.ok.injEq]
  ring

theorem exampleDriven_Rp : Pilote.Rp exampleDriven = .ok (13000 * mathPi) := by
  have ha : Pilote.alpha (⟨15, 0.40, 0, exampleSpt, 1, 1, 0, 4, 1.3⟩ : Pilote)
      = .ok 1.0 := by
    simp [Pilote.alpha, iloc, TABLALPHA]
  show Pilote.Rp ⟨15, 0.40, 0, exampleSpt, 1, 1, 0, 4, 1.3⟩ = .ok (13000 * mathPi)
  simp only [Pilote.Rp, ha, rp_eval_generic 0, ebind_ok]
  rw [if_neg (by norm_num)]
  simp only [Pilote.area, epure]
  norm_num [Except.ok.injEq]
  ring

theorem exampleDriven_RL : Pilote.RL exampleDriven = .ok (18000000 / 169 * mathPi) := by
  have hb : Pilote.beta (⟨15, 0.40, 0, exampleSpt, 1, 1, 0, 4, 1.3⟩ : Pilote)
      = .ok 1.0 := by
    simp [Pilote.beta, iloc, TABLABETA]
  show Pilote.RL ⟨15, 0.40, 0, exampleSpt, 1, 1, 0, 4, 1.3⟩
      = .ok (18000000 / 169 * mathPi)
  simp only [Pilote.RL, hb, rL_eval_generic 0, ebind_ok]
  rw [if_neg (by norm_num)]
  simp only [Pilote.area_lateral, epure]
  norm_num [Except.ok.injEq]
  ring

theorem examplePilote_R_adm : Pilote.R_adm examplePilote = .ok (1001400 / 13 * mathPi) := by
  simp only [Pilote.R_adm, examplePilote_Rp, examplePilote_RL, ebind_ok, epure]
  rw [if_pos (show examplePilote.perforacion_tipo ∈ [1, 2] by decide)]
  rw [min_eq_left (by norm_num [mathPi])]
  norm_num [Except.ok.injEq]
  ring

theorem exampleDriven_R_adm :
    Pilote.R_adm exampleDriven = .ok (20197000 / 169 * mathPi) := by
  simp only [Pilote.R_adm, exampleDriven_Rp, exampleDriven_RL, ebind_ok, epure]
  rw [if_neg (show ¬ (exampleDriven.perforacion_tipo ∈ [1, 2]) by decide)]
  norm_num [Except.ok.injEq]
  ring

/-- C1: the admissible total is tip_used plus the shaft capacity, where
tip_used is min(tip, 0.25 shaft) for the excavated installation methods
1 and 2 and the unmodified tip otherwise; consequently a bored pile
total never exceeds 0.25 shaft + shaft, and a non-bored total equals
tip + shaft exactly. -/
theorem R_adm_tip_cap (p : Pilote) (rp1 rl : ℚ)
    (hrp : Pilote.Rp p = .ok rp1) (hrl : Pilote.RL p = .ok rl) :
    Pilote.R_adm p
      = .ok ((if p.perforacion_tipo ∈ [1, 2] then min rp1 (0.25 * rl) else rp1) + rl)
    ∧ (p.perforacion_tipo ∈ [1, 2] →
        ∀ t, Pilote.R_adm p = .ok t → t ≤ 0.25 * rl + rl)
    ∧ (p.perforacion_tipo ∉ [1, 2] → Pilote.R_adm p = .ok (rp1 + rl)) := by
  have h : Pilote.R_adm p
      = .ok ((if p.perforacion_tipo ∈ [1, 2] then min rp1 (0.25 * rl) else rp1) + rl) := by
    simp only [Pilote.R_adm, hrp, hrl, ebind_ok, epure]
  refine ⟨h, ?_, ?_⟩
  · intro hm t ht
    rw [h] at ht
    have hx := Except.ok.inj ht
    rw [← hx, if_pos hm]
    exact add_le_add_right (min_le_right _ _) rl
  · intro hm
    rw [h, if_neg hm]

/-- Witness for C1 at the worked example pile. -/
theorem R_adm_tip_cap_witness :
    Pilote.R_adm examplePilote
      = .ok ((if examplePilote.perforacion_tipo ∈ [1, 2]
              then min (7800 * mathPi) (0.25 * (900000 / 13 * mathPi))
              else 7800 * mathPi) + 900000 / 13 * mathPi) :=
  (R_adm_tip_cap examplePilote (7800 * mathPi) (900000 / 13 * mathPi)
    examplePilote_Rp examplePilote_RL).1

/-- C8: on the worked example (22-value averaged SPT profile, length 15,
diameter 0.40, silty clay, Strauss excavation) the admissible total is a
finite positive number, and switching only the installation method to
driven yields an admissible total at least as large, since no tip cap
applies. -/
theorem worked_example_R_adm :
    Pilote.R_adm examplePilote = .ok (1001400 / 13 * mathPi)
    ∧ 0 < (1001400 / 13 : ℚ) * mathPi
    ∧ Pilote.R_adm exampleDriven = .ok (20197000 / 169 * mathPi)
    ∧ (1001400 / 13 : ℚ) * mathPi ≤ (20197000 / 169 : ℚ) * mathPi :=
  ⟨examplePilote_R_adm, by norm_num [mathPi], exampleDriven_R_adm, by norm_num [mathPi]⟩

/-- C2: the design per-pile load is the maximum of the no-wind
hypothesis, (N + W) divided by the number of piles, and the combined
hypothesis, which for the four-pile layout is ((N+W)/2 + (H h + M)/b)/n
and for the five- and nine-pile layouts is 2/3 of that quantity over n,
with b = B - 2 v - diameter, n = 2 for the four- and five-pile layouts
and n = 3 for the nine-pile layout, W being the cap self weight. -/
theorem carga_pilote_max_of_hypotheses (c : Cabezal)
    (htipo : c.tipo = 1 ∨ c.tipo = 2 ∨ c.tipo = 3)
    (hb : c.B - 2 * c.v - c.pilote.diametro ≠ 0) :
    Cabezal.carga_pilote c = .ok (max
      ((c.N + c.B ^ 2 * c.h * c.peso_esp)
        / (if c.tipo = 1 then 4 else if c.tipo = 2 then 5 else 9))
      (if c.tipo = 1 then
        ((c.N + c.B ^ 2 * c.h * c.peso_esp) / 2
          + (c.H * c.h + c.M) / (c.B - 2 * c.v - c.pilote.diametro)) / 2
      else
        (2 / 3 * ((c.N + c.B ^ 2 * c.h * c.peso_esp) / 2
          + (c.H * c.h + c.M) / (c.B - 2 * c.v - c.pilote.diametro)))
          / (if c.tipo = 3 then 3 else 2))) := by
  rcases htipo with h | h | h <;>
    simp [Cabezal.carga_pilote, Cabezal.cargaH1, Cabezal.cargaH2,
      Cabezal.numero_pilotes, Cabezal.factor_pilote, Cabezal.peso, tipologia, factores,
      h, hb, ebind_ok, epure, List.lookup]

/-- Witness for C2 at the worked five-pile cap. -/
theorem carga_pilote_max_of_hypotheses_witness :
    Cabezal.carga_pilote exampleCabezal = .ok (max
      ((exampleCabezal.N + exampleCabezal.B ^ 2 * exampleCabezal.h * exampleCabezal.peso_esp)
        / (if exampleCabezal.tipo = 1 then 4 else if exampleCabezal.tipo = 2 then 5 else 9))
      (if exampleCabezal.tipo = 1 then
        ((exampleCabezal.N + exampleCabezal.B ^ 2 * exampleCabezal.h * exampleCabezal.peso_esp) / 2
          + (exampleCabezal.H * exampleCabezal.h + exampleCabezal.M)
            / (exampleCabezal.B - 2 * exampleCabezal.v - exampleCabezal.pilote.diametro)) / 2
      else
        (2 / 3 * ((exampleCabezal.N + exampleCabezal.B ^ 2 * exampleCabezal.h * exampleCabezal.peso_esp) / 2
          + (exampleCabezal.H * exampleCabezal.h + exampleCabezal.M)
            / (exampleCabezal.B - 2 * exampleCabezal.v - exampleCabezal.pilote.diametro)))
          / (if exampleCabezal.tipo = 3 then 3 else 2))) :=
  carga_pilote_max_of_hypotheses exampleCabezal (by decide)
    (by norm_num [exampleCabezal, examplePilote])

theorem exampleCabezal_carga : Cabezal.carga_pilote exampleCabezal = .ok 258800 := by
  have hnum : Cabezal.numero_pilotes exampleCabezal = .ok 5 := rfl
  have hfac : Cabezal.factor_pilote exampleCabezal = .ok 2 := rfl
  have h1 : Cabezal.cargaH1 exampleCabezal = .ok 258800 := by
    simp only [Cabezal.cargaH1, hnum, ebind_ok, epure, Cabezal.peso]
    norm_num [exampleCabezal, Except.ok.injEq]
  have h2 : Cabezal.cargaH2 exampleCabezal = .ok (some (659000 / 3)) := by
    simp only [Cabezal.cargaH2, hfac, ebind_ok, epure, Cabezal.peso]
    norm_num [exampleCabezal, examplePilote, Except.ok.injEq]
  simp only [Cabezal.carga_pilote, h1, h2, ebind_ok, epure]
  rw [max_eq_left (by norm_num)]

/-- C3: the verification verdict is the boolean comparison of the
per-pile design load against the pile admissible total, true exactly
when the load is strictly below the capacity and false otherwise. -/
theorem verif_pilote_iff (c : Cabezal) (q r : ℚ)
    (hq : Cabezal.carga_pilote c = .ok q) (hr : Pilote.R_adm c.pilote = .ok r) :
    (Cabezal.verif_pilote c = .ok true ↔ q < r)
    ∧ (Cabezal.verif_pilote c = .ok false ↔ ¬ q < r) := by
  have hv : Cabezal.verif_pilote c = .ok (decide (q < r)) := by
    simp only [Cabezal.verif_pilote, hq, hr, ebind_ok, epure]
  rw [hv]
  constructor
  · simp [decide_eq_true_eq]
  · simp [decide_eq_false_iff_not]

/-- Witness for C3 at the worked five-pile cap, where the design load
258800 exceeds the pile capacity, so the verdict is false. -/
theorem verif_pilote_iff_witness : Cabezal.verif_pilote exampleCabezal = .ok false :=
  (verif_pilote_iff exampleCabezal 258800 (1001400 / 13 * mathPi)
    exampleCabezal_carga examplePilote_R_adm).2.mpr (by norm_num [mathPi])

/-- C10: the combined hypothesis divides by the clear span
b = B - 2 v - diameter with no guard: when B exceeds 2 v + diameter the
computation succeeds, when B equals 2 v + diameter it is a division by
zero, and when B is below 2 v + diameter it silently returns the value
computed with the negative b instead of failing. -/
theorem cargaH2_clear_span (c : Cabezal)
    (htipo : c.tipo = 1 ∨ c.tipo = 2 ∨ c.tipo = 3) :
    (2 * c.v + c.pilote.diametro < c.B → ∃ q, Cabezal.cargaH2 c = .ok (some q))
    ∧ (c.B = 2 * c.v + c.pilote.diametro → Cabezal.cargaH2 c = .error .zeroDivision)
    ∧ (c.B < 2 * c.v + c.pilote.diametro →
        Cabezal.cargaH2 c = .ok (some (if c.tipo = 1 then
          ((c.N + Cabezal.peso c) / 2
            + (c.H * c.h + c.M) / (c.B - 2 * c.v - c.pilote.diametro)) / 2
        else
          (2 / 3 * ((c.N + Cabezal.peso c) / 2
            + (c.H * c.h + c.M) / (c.B - 2 * c.v - c.pilote.diametro)))
            / (if c.tipo = 3 then 3 else 2)))) := by
  have hgen : ∀ _ : c.B - 2 * c.v - c.pilote.diametro ≠ 0,
      Cabezal.cargaH2 c = .ok (some (if c.tipo = 1 then
        ((c.N + Cabezal.peso c) / 2
          + (c.H * c.h + c.M) / (c.B - 2 * c.v - c.pilote.diametro)) / 2
      else
        (2 / 3 * ((c.N + Cabezal.peso c) / 2
          + (c.H * c.h + c.M) / (c.B - 2 * c.v - c.pilote.diametro)))
          / (if c.tipo = 3 then 3 else 2))) := by
    intro hb
    rcases htipo with h | h | h <;>
      simp [Cabezal.cargaH2, Cabezal.factor_pilote, factores, h, hb, ebind_ok, epure,
        List.lookup]
  refine ⟨fun hlt => ⟨_, hgen (by intro h0; linarith)⟩, ?_, fun hlt => hgen (by intro h0; linarith)⟩
  intro hB
  have hb0 : c.B - 2 * c.v - c.pilote.diametro = 0 := by rw [hB]; ring
  rcases htipo with h | h | h <;>
    simp [Cabezal.cargaH2, Cabezal.factor_pilote, factores, h, hb0, ebind_ok, epure,
      List.lookup]

/-- Witness for C10 at the cap whose width equals 2 v plus the pile
diameter: the clear span is zero and the computation raises. -/
theorem cargaH2_clear_span_witness :
    Cabezal.cargaH2 exampleCabezalZero = .error .zeroDivision :=
  (cargaH2_clear_span exampleCabezalZero (by decide)).2.1
    (by norm_num [exampleCabezalZero, examplePilote])

/-- C5: evaluation of ancho_min at the five-pile worked cap with no
wind force or moment. Because the source never calls numero_pilotes, the
b1 term uses multiplier 1 instead of the layout multiplier sqrt 2 that
the claim prescribes for the five-pile layout, so the result is
2 v + D + max(2.5 D, 0) = 0.6 + 0.4 + 1 = 2 and not
0.6 + 0.4 + sqrt 2 * 1. -/
theorem ancho_min_ignores_layout_multiplier :
    Cabezal.ancho_min exampleCabezal5 = .ok 2 := by
  have hPil : exampleCabezal5.pilote = examplePilote := rfl
  have hfp : Cabezal.factor_pilote exampleCabezal5 = .ok 2 := rfl
  simp only [Cabezal.ancho_min, hPil, examplePilote_R_adm, hfp, ebind_ok, epure,
    Cabezal.separacion_min]
  rw [if_neg (by norm_num [mathPi, examplePilote])]
  norm_num [exampleCabezal5, examplePilote, mathPi, Except.ok.injEq, max_def]
